import Mathlib

/-!
Verification development for the servicex_client repository.

The definitions below are a shallow embedding of the client-side
orchestration layer: the data model (submission requests, dataset
identifiers, transform status), the qastle query compiler
(generate_qastle in func_adl/servicex_dataset_source.py), the
ServiceXClient constructor (servicex_client.py), and an executable
small-step model of the submit/monitor/download protocol of
ServiceXDatasetSourceBase.submit_and_download.

Parts of the repository referenced by the code under study are absent
from the source tree (models.py, query_cache.py, func_adl/util.py);
those definitions are modelled from the specification and are marked
as such in their doc comments.
-/

namespace SxC

/-- Result destination enum. Modelled from the spec: models.py is absent from
the source tree; the spec gives a result-destination enum with the single
member object-store. -/
inductive ResultDestination where
  | object_store
  deriving DecidableEq, Repr

/-- Result format enum. Modelled from the spec: models.py is absent from the
source tree; the spec gives a result-format enum with members parquet and
root-file. -/
inductive ResultFormat where
  | parquet
  | root_file
  deriving DecidableEq, Repr

/-- Transform lifecycle phase. Modelled from the spec: the Status enum of
models.py is absent from the source tree; the spec gives the phases
submitted, running, complete and failed. The code under study compares
only against Status.complete. -/
inductive Status where
  | submitted
  | running
  | complete
  | failed
  deriving DecidableEq, Repr

/-- Submission request. Modelled from the spec: the TransformRequest class of
models.py is absent from the source tree. The spec wire shape lists title,
codegen name, did-or-file-list, result destination, result format and the
compiled query text (selection). -/
structure TransformRequest where
  title : String
  codegen : String
  did : Option String
  file_list : Option (List String)
  selection : String
  result_destination : ResultDestination
  result_format : ResultFormat
  deriving DecidableEq, Repr

/-- All TransformRequest fields except title, used as the cache identity. -/
structure RequestIdentity where
  codegen : String
  did : Option String
  file_list : Option (List String)
  selection : String
  result_destination : ResultDestination
  result_format : ResultFormat
  deriving DecidableEq, Repr

/-- Modelled from the spec: TransformRequest.compute_hash lives in models.py,
which is absent from the source tree. The spec requires a stable hash over
all SubmissionRequest fields except title, equal for two requests differing
only in title and distinct whenever the dataset reference or the compiled
query differs; it is modelled as the tuple of all fields except title. -/
def TransformRequest.compute_hash (r : TransformRequest) : RequestIdentity :=
  ⟨r.codegen, r.did, r.file_list, r.selection, r.result_destination, r.result_format⟩

/-- From dataset_identifier.py: DataSetIdentifier holds a scheme and a
dataset path. -/
structure DataSetIdentifier where
  scheme : String
  dataset : String
  deriving DecidableEq, Repr

/-- From dataset_identifier.py: the did property formats scheme://dataset. -/
def DataSetIdentifier.did (d : DataSetIdentifier) : String :=
  d.scheme ++ "://" ++ d.dataset

/-- From dataset_identifier.py lines 42-44: sets did and clears file_list. -/
def DataSetIdentifier.populate_transform_request (d : DataSetIdentifier)
    (t : TransformRequest) : TransformRequest :=
  { t with did := some d.did, file_list := none }

/-- From dataset_identifier.py: FileListDataset holds an explicit file list. -/
structure FileListDataset where
  files : List String
  deriving DecidableEq, Repr

/-- From dataset_identifier.py lines 59-61: sets file_list and clears did. -/
def FileListDataset.populate_transform_request (f : FileListDataset)
    (t : TransformRequest) : TransformRequest :=
  { t with file_list := some f.files, did := none }

/-- Python truthiness of an optional string argument: None and the empty
string are falsy, as in servicex_client.py line 45. -/
def truthy : Option String → Bool
  | none => false
  | some s => !s.isEmpty

/-- Configured endpoint entry of the .servicex file. -/
structure Endpoint where
  endpoint : String
  token : Option String
  deriving DecidableEq, Repr

/-- Observable actions of ServiceXClient.__init__ after the argument check:
constructing the adapter and the network call that lists code generators. -/
inductive ClientEffect where
  | adapter_created (url : String)
  | get_code_generators
  deriving DecidableEq, Repr

/-- From servicex_client.py lines 41-57: ServiceXClient.__init__. Raising
ValueError is modelled as Except.error; the effect trace records adapter
construction and the get_code_generators network call, which happen only
after the url/backend check passes. -/
def serviceXClient_init (endpoints : List (String × Endpoint))
    (backend url : Option String) : List ClientEffect × Except String String :=
  if truthy url == truthy backend then
    ([], Except.error "Only specify backend or url... not both")
  else if truthy url then
    let u := url.getD ""
    ([ClientEffect.adapter_created u, ClientEffect.get_code_generators], Except.ok u)
  else
    match endpoints.lookup (backend.getD "") with
    | some e =>
        ([ClientEffect.adapter_created e.endpoint, ClientEffect.get_code_generators],
         Except.ok e.endpoint)
    | none => ([], Except.error "Backend not defined in .servicex file")

/-- Shallow embedding of the Python ast nodes that generate_qastle
manipulates: Name, Constant (string or number), List, Tuple, Call,
Subscript (with a constant index), Dict, and a one-argument Lambda. -/
inductive PyAst where
  | name (id : String)
  | str (s : String)
  | num (n : Nat)
  | list (elts : List PyAst)
  | tuple (elts : List PyAst)
  | call (fn : PyAst) (args : List PyAst)
  | subscript (value : PyAst) (idx : Nat)
  | dict (keys : List PyAst) (values : List PyAst)
  | lambdaE (arg : String) (body : PyAst)

mutual

/-- Deterministic textual serialization of the query ast, standing in for
qastle.python_ast_to_text_ast (the qastle package is an external
collaborator; only "serializes the rewritten tree to text" matters here). -/
def textOfAst : PyAst → String
  | PyAst.name i => i
  | PyAst.str s => "(str " ++ s ++ ")"
  | PyAst.num n => toString n
  | PyAst.list es => "(list" ++ textOfAstList es ++ ")"
  | PyAst.tuple es => "(tuple" ++ textOfAstList es ++ ")"
  | PyAst.call f args => "(call " ++ textOfAst f ++ textOfAstList args ++ ")"
  | PyAst.subscript v i => "(subscript " ++ textOfAst v ++ " " ++ toString i ++ ")"
  | PyAst.dict ks vs =>
      "(dict (list" ++ textOfAstList ks ++ ") (list" ++ textOfAstList vs ++ "))"
  | PyAst.lambdaE a b => "(lambda (list " ++ a ++ ") " ++ textOfAst b ++ ")"

/-- Space-separated serialization of a list of ast nodes. -/
def textOfAstList : List PyAst → String
  | [] => ""
  | e :: es => " " ++ textOfAst e ++ textOfAstList es

end

mutual

/-- Modelled from the spec: has_tuple is imported from
servicex_client/func_adl/util.py, which is absent from the source tree.
The spec says the compiler inspects whether the stream already constructs
a tuple value; modelled as: the expression tree contains a Tuple node. -/
def has_tuple : PyAst → Bool
  | PyAst.tuple _ => true
  | PyAst.name _ => false
  | PyAst.str _ => false
  | PyAst.num _ => false
  | PyAst.list es => hasTupleList es
  | PyAst.call f args => has_tuple f || hasTupleList args
  | PyAst.subscript v _ => has_tuple v
  | PyAst.dict ks vs => hasTupleList ks || hasTupleList vs
  | PyAst.lambdaE _ b => has_tuple b

/-- Whether any element of the list contains a tuple constructor. -/
def hasTupleList : List PyAst → Bool
  | [] => false
  | e :: es => has_tuple e || hasTupleList es

end

/-- From servicex_dataset_source.py line 64: the terminal calls that are
translated locally. -/
def execute_locally : List String := ["ResultPandasDF", "ResultAwkwardArray"]

/-- Modelled from the spec: first_supported_datatype is a method of the
external dataset collaborator (self._ds). The spec describes it as
negotiation over a prioritized list of output formats, returning the first
entry the backend supports. -/
def first_supported_datatype (priorities supported : List String) : Option String :=
  priorities.find? (fun p => supported.contains p)

/-- Modelled from the spec: self._format_map maps the negotiated output
format name to the backend call used for it; the spec says the terminal is
rewritten in terms of the negotiated format's true backend call. -/
def format_map (fmt : String) : Option String :=
  if fmt == "parquet" then some "get_data_parquet_async"
  else if fmt == "root-file" then some "get_data_rootfiles_async"
  else none

/-- From servicex_dataset_source.py lines 377-386: each column name is
encoded as an index into the tuple the lambda is passed. -/
def encode_as_tuple_reference (c_names : List PyAst) : List PyAst :=
  (List.range c_names.length).map (fun idx => PyAst.subscript (PyAst.name "x") idx)

/-- From servicex_dataset_source.py lines 388-392: a single reference to the
whole (non-tuple) value. -/
def encode_as_single_reference : List PyAst := [PyAst.name "x"]

/-- From servicex_dataset_source.py lines 321-419:
ServiceXDatasetSourceBase.generate_qastle. The supported argument is the
backend's supported format list consumed by the negotiation call; Python
assertion failures and attribute/index errors are modelled as
Except.error. -/
def generate_qastle (supported : List String) (a : PyAst) : Except String String :=
  match a with
  | PyAst.call (PyAst.name top) args =>
    if execute_locally.contains top then
      match first_supported_datatype ["parquet", "root-file"] supported with
      | none => Except.error "Unsupported ServiceX returned format"
      | some default_format =>
        match format_map default_format with
        | none => Except.error ("Do not know how to call " ++ default_format)
        | some method_to_call =>
          match args with
          | stream :: col_names :: _ =>
            if method_to_call == "get_data_rootfiles_async" then
              match col_names with
              | PyAst.list elts =>
                  if elts.isEmpty then Except.ok (textOfAst stream)
                  else Except.ok (textOfAst (PyAst.call (PyAst.name "ResultTTree")
                        [stream, col_names, PyAst.str "treeme", PyAst.str "junk.root"]))
              | PyAst.str _ =>
                  Except.ok (textOfAst (PyAst.call (PyAst.name "ResultTTree")
                        [stream, col_names, PyAst.str "treeme", PyAst.str "junk.root"]))
              | PyAst.num _ =>
                  Except.ok (textOfAst (PyAst.call (PyAst.name "ResultTTree")
                        [stream, col_names, PyAst.str "treeme", PyAst.str "junk.root"]))
              | _ => Except.error "Programming error - type name not known"
            else if method_to_call == "get_data_parquet_async" then
              Except.ok (textOfAst stream)
            else Except.error ("Do not know how to call " ++ method_to_call)
          | _ => Except.error "IndexError: args"
    else if top == "ResultParquet" then
      match args with
      | source :: colArg :: _ =>
        match colArg with
        | PyAst.list col_names =>
          if col_names.isEmpty then Except.ok (textOfAst source)
          else
            let values :=
              if col_names.length == 1 then
                if has_tuple source then encode_as_tuple_reference col_names
                else encode_as_single_reference
              else encode_as_tuple_reference col_names
            let d := PyAst.dict col_names values
            let tup_func := PyAst.lambdaE "x" d
            let c := PyAst.call (PyAst.name "Select") [source, tup_func]
            Except.ok (textOfAst c)
        | _ => Except.error "AttributeError: elts"
      | _ => Except.error "IndexError: args"
    else Except.ok (textOfAst a)
  | _ => Except.error "AttributeError: id"

/-- Column-name argument shapes accepted by the root-file rewrite branch
(the isinstance check at servicex_dataset_source.py lines 347-349:
ast.List, ast.Constant, ast.Str). -/
def is_col_name_shape : PyAst → Bool
  | PyAst.list _ => true
  | PyAst.str _ => true
  | PyAst.num _ => true
  | _ => false

deriving instance DecidableEq for Except

/-- Transform status snapshot. Modelled from the spec: the TransformStatus
class of models.py is absent from the source tree. The orchestrator reads
request_id, status, files (absent until dataset discovery finishes),
files_completed and files_failed. -/
structure TransformStatus where
  request_id : String
  status : Status
  files : Option Nat
  files_completed : Nat
  files_failed : Nat
  deriving DecidableEq, Repr

/-- Cache record. Modelled from the spec: query_cache.py is absent from the
source tree. A record associates the request hash with the job identifier,
the local data directory, the ordered file-URI list and the terminal
status snapshot. -/
structure CacheRecord where
  request_id : String
  data_dir : String
  file_uris : List String
  status : TransformStatus
  deriving DecidableEq, Repr

/-- The local query cache, keyed by request identity. -/
abbrev QueryCache := List (RequestIdentity × CacheRecord)

/-- Modelled from the spec: QueryCache.get_transform_by_hash of
query_cache.py, absent from the source tree; lookup(hash) returning the
record or absent. -/
def get_transform_by_hash (cache : QueryCache) (h : RequestIdentity) :
    Option CacheRecord :=
  (cache.find? (fun p => decide (p.1 = h))).map Prod.snd

/-- Modelled from the spec: QueryCache.cache_transform of query_cache.py,
absent from the source tree; record(hash, status, dataDirectory, fileList)
persists a new CacheRecord keyed by the request hash. -/
def cache_transform (cache : QueryCache) (req : TransformRequest)
    (status : TransformStatus) (data_dir : String) (file_uris : List String) :
    QueryCache :=
  (req.compute_hash, ⟨status.request_id, data_dir, file_uris, status⟩) :: cache

/-- Modelled from the spec: QueryCache.cache_path_for_transform of
query_cache.py, absent from the source tree; pathForJob is a deterministic
mapping from the job identifier to a local storage directory. -/
def cache_path_for_transform (s : TransformStatus) : String :=
  "cache/" ++ s.request_id

/-- Observable actions of one submit_and_download run: the control-plane
submission, status polls, bucket listings, the start of each per-object
fetch, the completion of a fetch task, the completion-time reports of
transform_complete, the drain cancellation, the exception print/log of the
monitor callback, and the abort message of the CancelledError handler. -/
inductive Effect where
  | submit_transform
  | get_status
  | list_bucket
  | download_file (name : String)
  | get_signed_url (name : String)
  | fetch_finished (name : String)
  | report_failures (n : Nat)
  | report_success
  | cancel_drain
  | log_exception (msg : String)
  | print_abort
  deriving DecidableEq, Repr

/-- Shared state of the two cooperatively scheduled activities of
submit_and_download: the remaining scripted poll outcomes and bucket
listings, and the mutable fields of ServiceXDatasetSourceBase together
with the local variables of transform_status_listener and
download_files. -/
structure OrchState where
  polls : List (Except String TransformStatus)
  listings : List (List String)
  signed_urls_only : Bool
  current_status : Option TransformStatus
  download_path : Option String
  minio : Bool
  files_seen : List String
  pending : List String
  downloaded_file_paths : List String
  monitor_done : Bool
  monitor_error : Option String
  drain_done : Bool
  drain_cancelled : Bool
  effects : List Effect
  deriving DecidableEq, Repr

/-- One cooperative scheduling step: the monitor wakes and polls once, the
drain wakes for one listing round, or one in-flight fetch task finishes. -/
inductive Step where
  | monitor_poll
  | drain_round
  | fetch_complete (name : String)
  deriving DecidableEq, Repr

/-- The value appended for a finished fetch: the signed URL in
signed-urls mode, otherwise os.path.join(download_path, filename)
(servicex_dataset_source.py lines 270-278). -/
def fetch_result (st : OrchState) (name : String) : String :=
  if st.signed_urls_only then "signed://" ++ name
  else st.download_path.getD "" ++ "/" ++ name

/-- One iteration of transform_status_listener (servicex_dataset_source.py
lines 224-258) together with the transform_complete done-callback (lines
154-170). On the first poll the download path is set and the minio adapter
constructed; on a Status.complete poll the callback reports success or the
failed-file count; on an exception the callback prints it, cancels the
drain task and re-raises into the event loop. Cancelling the drain task
cancels pending fetch tasks only when the drain is already awaiting
asyncio.gather; fetch tasks spawned earlier otherwise keep running. -/
def monitor_step (st : OrchState) : OrchState :=
  if st.monitor_done then st
  else
    match st.polls with
    | [] => st
    | p :: rest =>
      let st1 := { st with polls := rest, effects := st.effects ++ [Effect.get_status] }
      match p with
      | Except.error msg =>
          let inGather := st1.drain_done && !st1.pending.isEmpty
          let finished := st1.drain_done && st1.pending.isEmpty
          { st1 with
              monitor_done := true,
              monitor_error := some msg,
              drain_cancelled := st1.drain_cancelled || !finished,
              pending := if inGather then [] else st1.pending,
              effects := st1.effects ++ [Effect.log_exception msg, Effect.cancel_drain] }
      | Except.ok stat =>
          let st2 :=
            if st1.current_status.isNone then
              { st1 with download_path := some (cache_path_for_transform stat) }
            else st1
          let st3 := { st2 with current_status := some stat, minio := true }
          if stat.status = Status.complete then
            if 0 < stat.files_failed then
              { st3 with monitor_done := true,
                         effects := st3.effects ++ [Effect.report_failures stat.files_failed] }
            else
              { st3 with monitor_done := true,
                         effects := st3.effects ++ [Effect.report_success] }
          else st3

/-- Accumulate the files of one bucket listing that have not been seen
before, in listing order (servicex_dataset_source.py lines 284-294). -/
def new_files (seen : List String) (l : List String) : List String :=
  (l.foldl
    (fun acc f => if acc.1.contains f then acc else (acc.1 ++ [f], acc.2 ++ [f]))
    (seen, [])).2

/-- One iteration of the download_files polling loop
(servicex_dataset_source.py lines 280-299): if the minio adapter exists,
list the bucket and spawn a fetch task for each file not yet seen; then
exit the loop once the current status is complete. -/
def drain_step (st : OrchState) : OrchState :=
  if st.drain_done || st.drain_cancelled then st
  else
    let st1 :=
      if st.minio then
        match st.listings with
        | [] => st
        | l :: rest =>
          let nf := new_files st.files_seen l
          let fx := nf.map (fun f =>
            if st.signed_urls_only then Effect.get_signed_url f else Effect.download_file f)
          { st with listings := rest,
                    files_seen := st.files_seen ++ nf,
                    pending := st.pending ++ nf,
                    effects := st.effects ++ [Effect.list_bucket] ++ fx }
      else st
    match st1.current_status with
    | some stat =>
        if stat.status = Status.complete then { st1 with drain_done := true } else st1
    | none => st1

/-- Completion of one in-flight fetch task (the download_file or
get_signed_url coroutine, servicex_dataset_source.py lines 270-278): the
resulting local path or URL is appended to downloaded_file_paths. -/
def fetch_step (st : OrchState) (name : String) : OrchState :=
  if st.pending.contains name then
    { st with pending := st.pending.erase name,
              downloaded_file_paths := st.downloaded_file_paths ++ [fetch_result st name],
              effects := st.effects ++ [Effect.fetch_finished name] }
  else st

/-- Dispatch one scheduling step. -/
def orch_step (st : OrchState) : Step → OrchState
  | Step.monitor_poll => monitor_step st
  | Step.drain_round => drain_step st
  | Step.fetch_complete n => fetch_step st n

/-- Run a schedule of cooperative steps from a state. -/
def run_orch (st : OrchState) (sched : List Step) : OrchState :=
  sched.foldl orch_step st

/-- The state just after servicex.submit_transform returns and the two
tasks are created (servicex_dataset_source.py lines 192-198). -/
def init_state (polls : List (Except String TransformStatus))
    (listings : List (List String)) (signed : Bool) : OrchState :=
  { polls := polls, listings := listings, signed_urls_only := signed,
    current_status := none, download_path := none, minio := false,
    files_seen := [], pending := [], downloaded_file_paths := [],
    monitor_done := false, monitor_error := none, drain_done := false,
    drain_cancelled := false, effects := [Effect.submit_transform] }

/-- A scripted run of the two activities: the monitor's poll outcomes, the
bucket listings the drain observes, and the interleaving schedule. -/
structure Scenario where
  polls : List (Except String TransformStatus)
  listings : List (List String)
  sched : List Step
  deriving DecidableEq, Repr

/-- The shared state after running a scenario. -/
def final_state (sc : Scenario) (signed : Bool) : OrchState :=
  run_orch (init_state sc.polls sc.listings signed) sc.sched

/-- Caller-visible outcome of submit_and_download: the cached file-URI list
on a cache hit, the downloaded list on completion, None after the
CancelledError handler (aborted), or still in flight when the scripted
schedule ends mid-run. -/
inductive Outcome where
  | cached_hit (uris : List String)
  | completed (paths : List String)
  | aborted
  | still_running
  deriving DecidableEq, Repr

/-- From servicex_dataset_source.py lines 144-209:
ServiceXDatasetSourceBase.submit_and_download. Compute the request hash
and return the cached record's file_uris on a hit with no further
activity; otherwise submit, run the scripted monitor/drain schedule, and
either await the drain result and write the cache record, or catch the
CancelledError caused by a monitor failure, print the abort message and
return None with no cache write. Returns the outcome, the effect trace and
the cache after the call. -/
def submit_and_download (cache : QueryCache) (req : TransformRequest)
    (sc : Scenario) (signed : Bool) : Outcome × List Effect × QueryCache :=
  match get_transform_by_hash cache req.compute_hash with
  | some rec => (Outcome.cached_hit rec.file_uris, [], cache)
  | none =>
    let fin := final_state sc signed
    if fin.drain_cancelled then
      (Outcome.aborted, fin.effects ++ [Effect.print_abort], cache)
    else if fin.drain_done && fin.pending.isEmpty then
      match fin.current_status with
      | some stat =>
          (Outcome.completed fin.downloaded_file_paths, fin.effects,
           cache_transform cache req stat (fin.download_path.getD "")
             fin.downloaded_file_paths)
      | none => (Outcome.still_running, fin.effects, cache)
    else (Outcome.still_running, fin.effects, cache)

/-- A running status snapshot used in concrete runs. -/
def st_running : TransformStatus :=
  { request_id := "r1", status := Status.running, files := some 2,
    files_completed := 0, files_failed := 0 }

/-- A completed status snapshot with no failed files. -/
def st_done : TransformStatus :=
  { request_id := "r1", status := Status.complete, files := some 2,
    files_completed := 2, files_failed := 0 }

/-- A completed status snapshot with one failed file out of three. -/
def st_partial : TransformStatus :=
  { request_id := "r1", status := Status.complete, files := some 3,
    files_completed := 2, files_failed := 1 }

/-- A concrete submission request (the request of test_query_cache.py). -/
def reqA : TransformRequest :=
  { title := "Test submission", codegen := "uproot", did := some "rucio://foo.bar",
    file_list := none, selection := "(call EventDataset)",
    result_destination := ResultDestination.object_store,
    result_format := ResultFormat.parquet }

/-- The same request with only the title changed. -/
def reqA_retitled : TransformRequest := { reqA with title := "This has changed" }

/-- The same request with a different dataset reference. -/
def reqA_other_did : TransformRequest := { reqA with did := some "rucio://baz.bar" }

/-- A run in which the two fetches finish in the opposite order of their
first observation: the drain sees a then b, but the fetch of b completes
first. -/
def scOrder : Scenario :=
  { polls := [Except.ok st_running, Except.ok st_done],
    listings := [["a", "b"], ["a", "b"]],
    sched := [Step.monitor_poll, Step.drain_round, Step.fetch_complete "b",
              Step.fetch_complete "a", Step.monitor_poll, Step.drain_round] }

/-- A run in which the second status poll raises while one fetch is still in
flight. -/
def scFail : Scenario :=
  { polls := [Except.ok st_running, Except.error "Bad thing happened"],
    listings := [["f1"]],
    sched := [Step.monitor_poll, Step.drain_round, Step.monitor_poll,
              Step.fetch_complete "f1"] }

/-- A run that completes with one failed file and both fetches drained. -/
def scPartial : Scenario :=
  { polls := [Except.ok st_running, Except.ok st_partial],
    listings := [["a", "b"], ["a", "b"]],
    sched := [Step.monitor_poll, Step.drain_round, Step.fetch_complete "a",
              Step.fetch_complete "b", Step.monitor_poll, Step.drain_round] }

/-- The empty scripted run. -/
def scEmpty : Scenario := { polls := [], listings := [], sched := [] }

/-- A cache record used for concrete cache-hit runs. -/
def recHit : CacheRecord :=
  { request_id := "r1", data_dir := "cache/r1", file_uris := ["u1", "u2"],
    status := st_done }

/-- A cache already holding a record for reqA. -/
def cacheHit : QueryCache := [(reqA.compute_hash, recHit)]

/-- Invariant: whenever the shared status slot holds a complete status with a
positive failed-file count, the transform_complete callback has already
reported that count. -/
def ReportInv (st : OrchState) : Prop :=
  ∀ stat, st.current_status = some stat → stat.status = Status.complete →
    0 < stat.files_failed → Effect.report_failures stat.files_failed ∈ st.effects

/-- Invariant: the drain task is only ever cancelled by a monitor failure. -/
def CancelInv (st : OrchState) : Prop :=
  st.drain_cancelled = true → st.monitor_error.isSome = true

/-- A cache hit short-circuits submit_and_download: the recorded file list is
returned, the effect trace is empty and the cache is unchanged. -/
theorem submit_hit (cache : QueryCache) (req : TransformRequest) (sc : Scenario)
    (signed : Bool) (rec : CacheRecord)
    (h : get_transform_by_hash cache req.compute_hash = some rec) :
    submit_and_download cache req sc signed =
      (Outcome.cached_hit rec.file_uris, [], cache) := by
  simp [submit_and_download, h]

/-- Looking up the hash of the request just recorded yields the new record. -/
theorem get_transform_by_hash_after_record (cache : QueryCache)
    (req : TransformRequest) (stat : TransformStatus) (dir : String)
    (uris : List String) :
    get_transform_by_hash (cache_transform cache req stat dir uris)
      req.compute_hash = some ⟨stat.request_id, dir, uris, stat⟩ := by
  simp [get_transform_by_hash, cache_transform, List.find?]

/-- Any invariant preserved by single steps is preserved by a whole run. -/
theorem run_orch_inv (P : OrchState → Prop)
    (hstep : ∀ st s, P st → P (orch_step st s)) :
    ∀ (sched : List Step) (st : OrchState), P st → P (run_orch st sched)
  | [], _, h => h
  | s :: rest, st, h =>
      run_orch_inv P hstep rest (orch_step st s) (hstep st s h)

/-- The monitor never touches the drain's accumulated file list. -/
theorem monitor_step_paths (st : OrchState) :
    (monitor_step st).downloaded_file_paths = st.downloaded_file_paths := by
  unfold monitor_step
  repeat' (first | split | dsimp only)

/-- A drain listing round never touches the accumulated file list. -/
theorem drain_step_paths (st : OrchState) :
    (drain_step st).downloaded_file_paths = st.downloaded_file_paths := by
  unfold drain_step
  repeat' (first | split | dsimp only)

/-- Effects already emitted survive a monitor poll. -/
theorem monitor_step_effects_mono (st : OrchState) (e : Effect)
    (h : e ∈ st.effects) : e ∈ (monitor_step st).effects := by
  unfold monitor_step
  (repeat' (first | split | dsimp only)) <;> simp [List.mem_append, h]

/-- Effects already emitted survive a drain round. -/
theorem drain_step_effects_mono (st : OrchState) (e : Effect)
    (h : e ∈ st.effects) : e ∈ (drain_step st).effects := by
  unfold drain_step
  (repeat' (first | split | dsimp only)) <;> simp [List.mem_append, h]

/-- Effects already emitted survive a fetch completion. -/
theorem fetch_step_effects_mono (st : OrchState) (n : String) (e : Effect)
    (h : e ∈ st.effects) : e ∈ (fetch_step st n).effects := by
  unfold fetch_step
  (repeat' (first | split | dsimp only)) <;> simp [List.mem_append, h]

/-- Effects already emitted survive any step. -/
theorem orch_step_effects_mono (st : OrchState) (s : Step) (e : Effect)
    (h : e ∈ st.effects) : e ∈ (orch_step st s).effects := by
  cases s with
  | monitor_poll => exact monitor_step_effects_mono st e h
  | drain_round => exact drain_step_effects_mono st e h
  | fetch_complete n => exact fetch_step_effects_mono st n e h

/-- The failed-file report invariant is preserved by a monitor poll: the
moment the monitor stores a complete status with a positive failed count it
also emits the report effect. -/
theorem monitor_step_report_inv (st : OrchState) (h : ReportInv st) :
    ReportInv (monitor_step st) := by
  unfold monitor_step
  repeat' (first | split | dsimp only)
  all_goals intro stat hcs hcomp hpos
  all_goals try dsimp only at hcs ⊢
  all_goals try simp only [List.mem_append, List.mem_singleton]
  all_goals
    first
      | exact Or.inl (Or.inl (h stat hcs hcomp hpos))
      | exact Or.inl (h stat hcs hcomp hpos)
      | exact h stat hcs hcomp hpos
      | simp_all

/-- The failed-file report invariant is preserved by a drain round. -/
theorem drain_step_report_inv (st : OrchState) (h : ReportInv st) :
    ReportInv (drain_step st) := by
  unfold drain_step
  repeat' (first | split | dsimp only)
  all_goals intro stat hcs hcomp hpos
  all_goals try dsimp only at hcs ⊢
  all_goals try simp only [List.mem_append, List.mem_singleton]
  all_goals
    first
      | exact Or.inl (Or.inl (h stat hcs hcomp hpos))
      | exact Or.inl (h stat hcs hcomp hpos)
      | exact h stat hcs hcomp hpos
      | simp_all

/-- The failed-file report invariant is preserved by a fetch completion. -/
theorem fetch_step_report_inv (st : OrchState) (n : String) (h : ReportInv st) :
    ReportInv (fetch_step st n) := by
  unfold fetch_step
  repeat' (first | split | dsimp only)
  all_goals intro stat hcs hcomp hpos
  all_goals try dsimp only at hcs ⊢
  all_goals try simp only [List.mem_append, List.mem_singleton]
  all_goals
    first
      | exact Or.inl (Or.inl (h stat hcs hcomp hpos))
      | exact Or.inl (h stat hcs hcomp hpos)
      | exact h stat hcs hcomp hpos
      | simp_all

/-- The failed-file report invariant is preserved by every step. -/
theorem orch_step_report_inv (st : OrchState) (s : Step) (h : ReportInv st) :
    ReportInv (orch_step st s) := by
  cases s with
  | monitor_poll => exact monitor_step_report_inv st h
  | drain_round => exact drain_step_report_inv st h
  | fetch_complete n => exact fetch_step_report_inv st n h

/-- The cancellation invariant is preserved by a monitor poll. -/
theorem monitor_step_cancel_inv (st : OrchState) (h : CancelInv st) :
    CancelInv (monitor_step st) := by
  unfold monitor_step
  repeat' (first | split | dsimp only)
  all_goals intro hc
  all_goals try dsimp only at hc ⊢
  all_goals first | exact h hc | rfl | simp_all

/-- The cancellation invariant is preserved by a drain round. -/
theorem drain_step_cancel_inv (st : OrchState) (h : CancelInv st) :
    CancelInv (drain_step st) := by
  unfold drain_step
  repeat' (first | split | dsimp only)
  all_goals intro hc
  all_goals try dsimp only at hc ⊢
  all_goals first | exact h hc | rfl | simp_all

/-- The cancellation invariant is preserved by a fetch completion. -/
theorem fetch_step_cancel_inv (st : OrchState) (n : String) (h : CancelInv st) :
    CancelInv (fetch_step st n) := by
  unfold fetch_step
  repeat' (first | split | dsimp only)
  all_goals intro hc
  all_goals try dsimp only at hc ⊢
  all_goals first | exact h hc | rfl | simp_all

/-- The cancellation invariant is preserved by every step. -/
theorem orch_step_cancel_inv (st : OrchState) (s : Step) (h : CancelInv st) :
    CancelInv (orch_step st s) := by
  cases s with
  | monitor_poll => exact monitor_step_cancel_inv st h
  | drain_round => exact drain_step_cancel_inv st h
  | fetch_complete n => exact fetch_step_cancel_inv st n h

/-- The failed-file report invariant holds at the end of any scripted run. -/
theorem report_inv_final (sc : Scenario) (signed : Bool) :
    ReportInv (final_state sc signed) := by
  apply run_orch_inv ReportInv orch_step_report_inv
  intro stat hcs
  simp [init_state] at hcs

/-- The cancellation invariant holds at the end of any scripted run. -/
theorem cancel_inv_final (sc : Scenario) (signed : Bool) :
    CancelInv (final_state sc signed) := by
  apply run_orch_inv CancelInv orch_step_cancel_inv
  intro hc
  simp [init_state] at hc

/-- A run without a monitor failure never has a cancelled drain. -/
theorem no_error_no_cancel (sc : Scenario) (signed : Bool)
    (hm : (final_state sc signed).monitor_error = none) :
    (final_state sc signed).drain_cancelled = false := by
  cases hfc : (final_state sc signed).drain_cancelled with
  | false => rfl
  | true =>
      have hs := cancel_inv_final sc signed hfc
      rw [hm] at hs
      simp at hs

/-- Characterization of a cache-miss run that completes: the drain result is
returned and the cache record written. -/
theorem submit_completed (cache : QueryCache) (req : TransformRequest)
    (sc : Scenario) (signed : Bool) (stat : TransformStatus)
    (h0 : get_transform_by_hash cache req.compute_hash = none)
    (hc : (final_state sc signed).drain_cancelled = false)
    (hd : (final_state sc signed).drain_done = true)
    (hp : (final_state sc signed).pending = [])
    (hs : (final_state sc signed).current_status = some stat) :
    submit_and_download cache req sc signed =
      (Outcome.completed (final_state sc signed).downloaded_file_paths,
       (final_state sc signed).effects,
       cache_transform cache req stat
         ((final_state sc signed).download_path.getD "")
         (final_state sc signed).downloaded_file_paths) := by
  simp [submit_and_download, h0, hc, hd, hp, hs]

/-- Inversion: a completed outcome can only come from the completed branch of
submit_and_download, so the returned list is the drain's accumulated list
and the new cache holds exactly that list under the request hash. -/
theorem submit_completed_inversion (cache : QueryCache) (req : TransformRequest)
    (sc : Scenario) (signed : Bool) (paths : List String) (eff : List Effect)
    (cache2 : QueryCache)
    (h : submit_and_download cache req sc signed =
      (Outcome.completed paths, eff, cache2)) :
    ∃ stat, (final_state sc signed).current_status = some stat ∧
      paths = (final_state sc signed).downloaded_file_paths ∧
      cache2 = cache_transform cache req stat
        ((final_state sc signed).download_path.getD "") paths := by
  unfold submit_and_download at h
  cases hga : get_transform_by_hash cache req.compute_hash with
  | some rec => rw [hga] at h; simp at h
  | none =>
      rw [hga] at h
      dsimp only at h
      split at h
      · simp at h
      · split at h
        · split at h
          · rename_i stat heq
            simp only [Prod.mk.injEq, Outcome.completed.injEq] at h
            obtain ⟨h1, _h2, h3⟩ := h
            exact ⟨stat, heq, h1.symm, by rw [← h3, ← h1]⟩
          · simp at h
        · simp at h

/-- C1: for every submission request whose hash already has a cache record,
submit_and_download returns the recorded file-URI list immediately: the
outcome is the recorded list, the effect trace is empty (no control-plane
submission, no status poll, no object-store activity) and the cache is
unchanged. -/
theorem C1_cache_hit_short_circuits (cache : QueryCache)
    (req : TransformRequest) (sc : Scenario) (signed : Bool) (rec : CacheRecord)
    (h : get_transform_by_hash cache req.compute_hash = some rec) :
    submit_and_download cache req sc signed =
      (Outcome.cached_hit rec.file_uris, [], cache) ∧
    Effect.submit_transform ∉ (submit_and_download cache req sc signed).2.1 ∧
    Effect.get_status ∉ (submit_and_download cache req sc signed).2.1 ∧
    Effect.list_bucket ∉ (submit_and_download cache req sc signed).2.1 ∧
    ∀ f, Effect.download_file f ∉ (submit_and_download cache req sc signed).2.1 ∧
         Effect.get_signed_url f ∉ (submit_and_download cache req sc signed).2.1 := by
  have he := submit_hit cache req sc signed rec h
  refine ⟨he, ?_, ?_, ?_, ?_⟩ <;> rw [he] <;> simp

/-- C1 witness: with a cache already holding a record for reqA, a run
returns the recorded URIs with no effects. -/
theorem C1_cache_hit_short_circuits_witness :
    submit_and_download cacheHit reqA scOrder false =
      (Outcome.cached_hit ["u1", "u2"], [], cacheHit) :=
  (C1_cache_hit_short_circuits cacheHit reqA scOrder false recHit (by rfl)).1

/-- C2: compute_hash is insensitive to title only: two requests differing
only in the title field hash equally, while requests that differ in the
dataset reference (did) or in the compiled query text (selection) hash
differently. -/
theorem C2_hash_title_insensitive :
    (∀ (r : TransformRequest) (t : String),
        TransformRequest.compute_hash { r with title := t } = r.compute_hash) ∧
    (∀ r1 r2 : TransformRequest, r1.did ≠ r2.did →
        r1.compute_hash ≠ r2.compute_hash) ∧
    (∀ r1 r2 : TransformRequest, r1.selection ≠ r2.selection →
        r1.compute_hash ≠ r2.compute_hash) := by
  refine ⟨fun r t => rfl, ?_, ?_⟩ <;>
    · intro r1 r2 hne heq
      apply hne
      have hfields :=
        (by simpa [TransformRequest.compute_hash, RequestIdentity.mk.injEq] using heq :
          r1.codegen = r2.codegen ∧ r1.did = r2.did ∧ r1.file_list = r2.file_list ∧
          r1.selection = r2.selection ∧ r1.result_format = r2.result_format)
      tauto

/-- C2 witness: the concrete requests of test_query_cache.py: retitling
keeps the hash, changing the DID changes it. -/
theorem C2_hash_title_insensitive_witness :
    reqA_retitled.compute_hash = reqA.compute_hash ∧
    reqA.compute_hash ≠ reqA_other_did.compute_hash := by
  constructor
  · exact C2_hash_title_insensitive.1 reqA "This has changed"
  · exact C2_hash_title_insensitive.2.1 reqA reqA_other_did (by decide)

/-- C9: populate_transform_request keeps did and file_list mutually
exclusive on the wire request: a scheme+path identifier sets did and clears
file_list, an explicit file list sets file_list and clears did; in both
cases exactly one of the two fields is populated. -/
theorem C9_did_file_list_exclusive :
    (∀ (d : DataSetIdentifier) (t : TransformRequest),
        (d.populate_transform_request t).did = some d.did ∧
        (d.populate_transform_request t).file_list = none ∧
        (d.populate_transform_request t).did.isSome = true) ∧
    (∀ (f : FileListDataset) (t : TransformRequest),
        (f.populate_transform_request t).file_list = some f.files ∧
        (f.populate_transform_request t).did = none ∧
        (f.populate_transform_request t).file_list.isSome = true) := by
  exact ⟨fun d t => ⟨rfl, rfl, rfl⟩, fun f t => ⟨rfl, rfl, rfl⟩⟩

/-- C10: constructing a ServiceXClient with url and backend both set, or
with neither set, fails with the ValueError before any endpoint is
contacted: the effect trace of the failing construction is empty. -/
theorem C10_url_backend_exclusive (endpoints : List (String × Endpoint))
    (backend url : Option String) (h : truthy url = truthy backend) :
    serviceXClient_init endpoints backend url =
      ([], Except.error "Only specify backend or url... not both") := by
  simp [serviceXClient_init, h]

/-- C10 witness: both arguments set. -/
theorem C10_url_backend_exclusive_witness :
    serviceXClient_init [] (some "prod") (some "https://servicex.org") =
      ([], Except.error "Only specify backend or url... not both") :=
  C10_url_backend_exclusive [] (some "prod") (some "https://servicex.org") (by rfl)

/-- When the backend supports parquet, the prioritized negotiation picks
parquet. -/
theorem first_supported_parquet (supported : List String)
    (h : supported.contains "parquet" = true) :
    first_supported_datatype ["parquet", "root-file"] supported = some "parquet" := by
  have hm : "parquet" ∈ supported := by simpa using h
  simp [first_supported_datatype, List.find?, hm]

/-- When the backend supports only root-file of the two priorities, the
negotiation picks root-file. -/
theorem first_supported_rootfile (supported : List String)
    (h1 : supported.contains "parquet" = false)
    (h2 : supported.contains "root-file" = true) :
    first_supported_datatype ["parquet", "root-file"] supported =
      some "root-file" := by
  have hm1 : "parquet" ∉ supported := by simpa using h1
  have hm2 : "root-file" ∈ supported := by simpa using h2
  simp [first_supported_datatype, List.find?, hm1, hm2]

/-- C6 counterexample: with the negotiated format parquet (first entry of the
prioritized list, supported by the backend), a locally executed terminal
with one requested column name over a stream that carries no named fields
compiles to the unmodified inner stream text: no backend call is rewritten
in and the column name does not occur in the output, contrary to the
claimed re-attachment of column names as a field-selection step. -/
theorem C6_counterexample :
    generate_qastle ["parquet", "root-file"]
        (PyAst.call (PyAst.name "ResultPandasDF")
          [PyAst.name "evts", PyAst.list [PyAst.str "col1"]]) =
      Except.ok "evts" ∧
    textOfAst (PyAst.name "evts") = "evts" ∧
    has_tuple (PyAst.name "evts") = false ∧
    ¬ "col1".data <:+: "evts".data :=
  ⟨rfl, rfl, rfl, by decide⟩

/-- C6 (amended): for a locally executed terminal (ResultPandasDF or
ResultAwkwardArray) the negotiated format is the first of
["parquet", "root-file"] the backend supports; if that is parquet the
terminal is stripped and the inner stream is emitted unmodified with the
column names dropped (no select injected); if it is root-file, an empty
column-name list passes the stream through unmodified, and a non-empty one
rewrites the terminal as the ResultTTree backend call carrying the column
names. -/
theorem C6_local_terminal_rewrite :
    (∀ (supported : List String) (top : String) (stream cn : PyAst),
        execute_locally.contains top = true →
        supported.contains "parquet" = true →
        generate_qastle supported (PyAst.call (PyAst.name top) [stream, cn]) =
          Except.ok (textOfAst stream)) ∧
    (∀ (supported : List String) (top : String) (stream : PyAst),
        execute_locally.contains top = true →
        supported.contains "parquet" = false →
        supported.contains "root-file" = true →
        generate_qastle supported
            (PyAst.call (PyAst.name top) [stream, PyAst.list []]) =
          Except.ok (textOfAst stream)) ∧
    (∀ (supported : List String) (top : String) (stream : PyAst)
        (cs : List PyAst),
        execute_locally.contains top = true →
        supported.contains "parquet" = false →
        supported.contains "root-file" = true →
        cs ≠ [] →
        generate_qastle supported
            (PyAst.call (PyAst.name top) [stream, PyAst.list cs]) =
          Except.ok (textOfAst (PyAst.call (PyAst.name "ResultTTree")
            [stream, PyAst.list cs, PyAst.str "treeme", PyAst.str "junk.root"]))) := by
  refine ⟨?_, ?_, ?_⟩
  · intro supported top stream cn htop hpq
    have hmem : top ∈ execute_locally := by simpa using htop
    simp [generate_qastle, hmem, first_supported_parquet supported hpq, format_map]
  · intro supported top stream htop hpq hrf
    have hmem : top ∈ execute_locally := by simpa using htop
    simp [generate_qastle, hmem, first_supported_rootfile supported hpq hrf,
      format_map]
  · intro supported top stream cs htop hpq hrf hne
    have hmem : top ∈ execute_locally := by simpa using htop
    cases cs with
    | nil => exact absurd rfl hne
    | cons c ct =>
        simp [generate_qastle, hmem, first_supported_rootfile supported hpq hrf,
          format_map]

/-- C6 witness: the parquet branch at a concrete input with a column name,
the empty-column root-file branch, and the non-empty root-file branch. -/
theorem C6_local_terminal_rewrite_witness :
    generate_qastle ["parquet", "root-file"]
        (PyAst.call (PyAst.name "ResultAwkwardArray")
          [PyAst.name "evts", PyAst.list [PyAst.str "col1"]]) =
      Except.ok (textOfAst (PyAst.name "evts")) ∧
    generate_qastle ["root-file"]
        (PyAst.call (PyAst.name "ResultPandasDF")
          [PyAst.name "evts", PyAst.list []]) =
      Except.ok (textOfAst (PyAst.name "evts")) ∧
    generate_qastle ["root-file"]
        (PyAst.call (PyAst.name "ResultPandasDF")
          [PyAst.name "evts", PyAst.list [PyAst.str "col1"]]) =
      Except.ok (textOfAst (PyAst.call (PyAst.name "ResultTTree")
        [PyAst.name "evts", PyAst.list [PyAst.str "col1"], PyAst.str "treeme",
         PyAst.str "junk.root"])) :=
  ⟨C6_local_terminal_rewrite.1 ["parquet", "root-file"] "ResultAwkwardArray"
      (PyAst.name "evts") (PyAst.list [PyAst.str "col1"]) (by rfl) (by rfl),
   C6_local_terminal_rewrite.2.1 ["root-file"] "ResultPandasDF"
      (PyAst.name "evts") (by rfl) (by rfl) (by rfl),
   C6_local_terminal_rewrite.2.2 ["root-file"] "ResultPandasDF"
      (PyAst.name "evts") [PyAst.str "col1"] (by rfl) (by rfl) (by rfl)
      (by simp)⟩

/-- C7: for a ResultParquet terminal the compiler strips the terminal and,
with a non-empty column-name list, injects one outer Select node: over a
tuple-constructing stream each column name is paired with the subscript of
the corresponding tuple index (name i with index i, via List.range); over a
non-tuple stream with exactly one name the name is paired with the whole
value x; with zero column names the inner stream text is emitted
unmodified. -/
theorem C7_result_parquet_select :
    (∀ (supported : List String) (source : PyAst) (cs : List PyAst),
        has_tuple source = true → cs ≠ [] →
        generate_qastle supported
            (PyAst.call (PyAst.name "ResultParquet") [source, PyAst.list cs]) =
          Except.ok (textOfAst (PyAst.call (PyAst.name "Select")
            [source, PyAst.lambdaE "x" (PyAst.dict cs
              ((List.range cs.length).map
                (fun idx => PyAst.subscript (PyAst.name "x") idx)))]))) ∧
    (∀ (supported : List String) (source c : PyAst),
        has_tuple source = false →
        generate_qastle supported
            (PyAst.call (PyAst.name "ResultParquet") [source, PyAst.list [c]]) =
          Except.ok (textOfAst (PyAst.call (PyAst.name "Select")
            [source, PyAst.lambdaE "x" (PyAst.dict [c] [PyAst.name "x"])]))) ∧
    (∀ (supported : List String) (source : PyAst),
        generate_qastle supported
            (PyAst.call (PyAst.name "ResultParquet") [source, PyAst.list []]) =
          Except.ok (textOfAst source)) := by
  have hnotin : ¬ "ResultParquet" ∈ execute_locally := by decide
  refine ⟨?_, ?_, ?_⟩
  · intro supported source cs hht hne
    cases cs with
    | nil => exact absurd rfl hne
    | cons c ct =>
        simp [generate_qastle, hnotin, hht, encode_as_tuple_reference, ite_self]
  · intro supported source c hht
    simp [generate_qastle, hnotin, hht, encode_as_single_reference]
  · intro supported source
    simp [generate_qastle, hnotin]

/-- C7 witness: the tuple-stream mapping for ["pt", "eta"], the single name
over a non-tuple stream, and the zero-name pass-through, at concrete
inputs. -/
theorem C7_result_parquet_select_witness :
    generate_qastle ["parquet", "root-file"]
        (PyAst.call (PyAst.name "ResultParquet")
          [PyAst.tuple [PyAst.name "a", PyAst.name "b"],
           PyAst.list [PyAst.str "pt", PyAst.str "eta"]]) =
      Except.ok (textOfAst (PyAst.call (PyAst.name "Select")
        [PyAst.tuple [PyAst.name "a", PyAst.name "b"],
         PyAst.lambdaE "x" (PyAst.dict [PyAst.str "pt", PyAst.str "eta"]
          ((List.range 2).map
            (fun idx => PyAst.subscript (PyAst.name "x") idx)))])) ∧
    generate_qastle ["parquet", "root-file"]
        (PyAst.call (PyAst.name "ResultParquet")
          [PyAst.name "evts", PyAst.list [PyAst.str "col1"]]) =
      Except.ok (textOfAst (PyAst.call (PyAst.name "Select")
        [PyAst.name "evts",
         PyAst.lambdaE "x" (PyAst.dict [PyAst.str "col1"] [PyAst.name "x"])])) ∧
    generate_qastle ["parquet", "root-file"]
        (PyAst.call (PyAst.name "ResultParquet")
          [PyAst.name "evts", PyAst.list []]) =
      Except.ok (textOfAst (PyAst.name "evts")) :=
  ⟨C7_result_parquet_select.1 ["parquet", "root-file"]
      (PyAst.tuple [PyAst.name "a", PyAst.name "b"])
      [PyAst.str "pt", PyAst.str "eta"] (by rfl) (by simp),
   C7_result_parquet_select.2.1 ["parquet", "root-file"] (PyAst.name "evts")
      (PyAst.str "col1") (by rfl),
   C7_result_parquet_select.2.2 ["parquet", "root-file"] (PyAst.name "evts")⟩

/-- C8 counterexample: two column names against a stream that does not
construct a tuple do not fail at all (and there is no CompilationError type
in the code): generate_qastle succeeds, emitting tuple-index subscripts
over the non-tuple value. -/
theorem C8_counterexample :
    has_tuple (PyAst.name "evts") = false ∧
    generate_qastle ["parquet", "root-file"]
        (PyAst.call (PyAst.name "ResultParquet")
          [PyAst.name "evts", PyAst.list [PyAst.str "a", PyAst.str "b"]]) =
      Except.ok (textOfAst (PyAst.call (PyAst.name "Select")
        [PyAst.name "evts", PyAst.lambdaE "x" (PyAst.dict
          [PyAst.str "a", PyAst.str "b"]
          [PyAst.subscript (PyAst.name "x") 0,
           PyAst.subscript (PyAst.name "x") 1])])) :=
  ⟨rfl, rfl⟩

/-- C8 (amended): shape mismatches fail synchronously inside the pure
compiler as assertion errors, not as a CompilationError (no such type
exists): on the root-file rewrite path a column-name argument that is not a
list or a constant fails with the programming-error assertion; but more
than one column name against a non-tuple-producing stream is not an error:
the compiler emits tuple-index subscripts over the non-tuple value. -/
theorem C8_shape_mismatch_assertion :
    (∀ (supported : List String) (top : String) (stream badArg : PyAst)
        (rest : List PyAst),
        execute_locally.contains top = true →
        supported.contains "parquet" = false →
        supported.contains "root-file" = true →
        is_col_name_shape badArg = false →
        generate_qastle supported
            (PyAst.call (PyAst.name top) (stream :: badArg :: rest)) =
          Except.error "Programming error - type name not known") ∧
    (∀ (supported : List String) (source : PyAst) (cs : List PyAst),
        has_tuple source = false → 1 < cs.length →
        generate_qastle supported
            (PyAst.call (PyAst.name "ResultParquet") [source, PyAst.list cs]) =
          Except.ok (textOfAst (PyAst.call (PyAst.name "Select")
            [source, PyAst.lambdaE "x"
              (PyAst.dict cs (encode_as_tuple_reference cs))]))) := by
  constructor
  · intro supported top stream badArg rest htop hpq hrf hshape
    have hmem : top ∈ execute_locally := by simpa using htop
    cases badArg <;>
      simp_all [generate_qastle, hmem, first_supported_rootfile supported hpq hrf,
        format_map, is_col_name_shape]
  · intro supported source cs hht hlen
    have hnotin : ¬ "ResultParquet" ∈ execute_locally := by decide
    cases cs with
    | nil => simp at hlen
    | cons c ct =>
        have hne1 : (ct.length + 1 == 1) = false := by
          simp only [beq_eq_false_iff_ne]
          simp at hlen
          omega
        simp [generate_qastle, hnotin, hht, hne1]

/-- C8 witness: a Name-shaped column argument on the root-file path fails
with the assertion message; two names over a non-tuple stream succeed. -/
theorem C8_shape_mismatch_assertion_witness :
    generate_qastle ["root-file"]
        (PyAst.call (PyAst.name "ResultPandasDF")
          [PyAst.name "evts", PyAst.name "cols"]) =
      Except.error "Programming error - type name not known" ∧
    generate_qastle ["parquet"]
        (PyAst.call (PyAst.name "ResultParquet")
          [PyAst.name "evts", PyAst.list [PyAst.str "a", PyAst.str "b"]]) =
      Except.ok (textOfAst (PyAst.call (PyAst.name "Select")
        [PyAst.name "evts", PyAst.lambdaE "x"
          (PyAst.dict [PyAst.str "a", PyAst.str "b"]
            (encode_as_tuple_reference [PyAst.str "a", PyAst.str "b"]))])) :=
  ⟨C8_shape_mismatch_assertion.1 ["root-file"] "ResultPandasDF"
      (PyAst.name "evts") (PyAst.name "cols") [] (by rfl) (by rfl) (by rfl)
      (by rfl),
   C8_shape_mismatch_assertion.2 ["parquet"] (PyAst.name "evts")
      [PyAst.str "a", PyAst.str "b"] (by rfl) (by simp)⟩

/-- C3 counterexample: in a run where the drain first observes a and then b
but the fetch of b completes before the fetch of a, the returned list is
["cache/r1/b", "cache/r1/a"] while the first-seen order of the drain is
[a, b]; so the returned list is in fetch-completion order, not first-seen
order. -/
theorem C3_counterexample :
    (submit_and_download [] reqA scOrder false).1 =
      Outcome.completed ["cache/r1/b", "cache/r1/a"] ∧
    (final_state scOrder false).files_seen = ["a", "b"] ∧
    ["cache/r1/b", "cache/r1/a"] ≠
      ["a", "b"].map (fun f => "cache/r1/" ++ f) :=
  ⟨by decide, by decide, by decide⟩

/-- C3 (amended): the file list returned by submit_and_download is ordered by
the completion of the per-object fetches (the accumulated list grows only
when a pending fetch finishes, by exactly its path) — which can differ from
first-seen order when fetches overlap; and whenever a run returns a
completed list, the identical list in the identical order is persisted in
the cache record for the request hash and returned verbatim, with no
effects, on every subsequent call for that request. -/
theorem C3_completion_order_persisted :
    (∀ (st : OrchState) (s : Step),
        (orch_step st s).downloaded_file_paths = st.downloaded_file_paths ∨
        ∃ n, s = Step.fetch_complete n ∧ st.pending.contains n = true ∧
          (orch_step st s).downloaded_file_paths =
            st.downloaded_file_paths ++ [fetch_result st n]) ∧
    (∀ (cache : QueryCache) (req : TransformRequest) (sc : Scenario)
        (signed : Bool) (paths : List String) (eff : List Effect)
        (cache2 : QueryCache),
        submit_and_download cache req sc signed =
          (Outcome.completed paths, eff, cache2) →
        (get_transform_by_hash cache2 req.compute_hash).map
            CacheRecord.file_uris = some paths ∧
        ∀ (sc2 : Scenario) (s2 : Bool),
          submit_and_download cache2 req sc2 s2 =
            (Outcome.cached_hit paths, [], cache2)) := by
  constructor
  · intro st s
    cases s with
    | monitor_poll => exact Or.inl (monitor_step_paths st)
    | drain_round => exact Or.inl (drain_step_paths st)
    | fetch_complete n =>
        by_cases hn : st.pending.contains n = true
        · have hm : n ∈ st.pending := by simpa using hn
          exact Or.inr ⟨n, rfl, hn, by simp [orch_step, fetch_step, hm]⟩
        · have hm : n ∉ st.pending := by simpa using hn
          exact Or.inl (by simp [orch_step, fetch_step, hm])
  · intro cache req sc signed paths eff cache2 h
    obtain ⟨stat, _hs, hpaths, hcache⟩ :=
      submit_completed_inversion cache req sc signed paths eff cache2 h
    constructor
    · rw [hcache, get_transform_by_hash_after_record]
      rfl
    · intro sc2 s2
      rw [hcache]
      exact submit_hit _ req sc2 s2 _
        (get_transform_by_hash_after_record cache req stat
          ((final_state sc signed).download_path.getD "") paths)

/-- C3 witness: after the out-of-order run the persisted record holds exactly
the completion-ordered list and a repeat call is a silent cache hit. -/
theorem C3_completion_order_persisted_witness :
    (get_transform_by_hash (submit_and_download [] reqA scOrder false).2.2
        reqA.compute_hash).map CacheRecord.file_uris =
      some ["cache/r1/b", "cache/r1/a"] ∧
    submit_and_download (submit_and_download [] reqA scOrder false).2.2 reqA
        scEmpty false =
      (Outcome.cached_hit ["cache/r1/b", "cache/r1/a"], [],
       (submit_and_download [] reqA scOrder false).2.2) := by
  have h := C3_completion_order_persisted.2 [] reqA scOrder false
    ["cache/r1/b", "cache/r1/a"] _ _ rfl
  exact ⟨h.1, h.2 scEmpty false⟩

/-- C4: evaluation of the code at the failing input (a monitor that raises
on its second poll while the fetch of f1 is still in flight). The drain
task is cancelled and no cache record is written — but the caller-visible
outcome is the aborted None return of the CancelledError handler, not the
monitor's exception, which is only printed and re-raised into the event
loop (log_exception); and the already-started fetch of f1 is not
cancelled: it still runs to completion after cancel_drain. -/
theorem C4_monitor_failure_run :
    submit_and_download [] reqA scFail false =
      (Outcome.aborted,
       [Effect.submit_transform, Effect.get_status, Effect.list_bucket,
        Effect.download_file "f1", Effect.get_status,
        Effect.log_exception "Bad thing happened", Effect.cancel_drain,
        Effect.fetch_finished "f1", Effect.print_abort], []) ∧
    (final_state scFail false).drain_cancelled = true ∧
    (run_orch (init_state scFail.polls scFail.listings false)
        [Step.monitor_poll, Step.drain_round, Step.monitor_poll]).pending =
      ["f1"] :=
  ⟨by decide, by decide, by decide⟩

/-- C5: a job that reaches the complete phase with a positive files-failed
count is a successful submission: the downloaded list is returned, the
non-zero failure count was reported by the completion callback, a cache
record holding exactly that list is written, and a repeated identical
request is a silent cache hit returning the same partial result. -/
theorem C5_partial_failure_success (cache : QueryCache) (req : TransformRequest)
    (sc : Scenario) (signed : Bool) (stat : TransformStatus)
    (h0 : get_transform_by_hash cache req.compute_hash = none)
    (hs : (final_state sc signed).current_status = some stat)
    (hcomp : stat.status = Status.complete)
    (hpos : 0 < stat.files_failed)
    (hm : (final_state sc signed).monitor_error = none)
    (hd : (final_state sc signed).drain_done = true)
    (hp : (final_state sc signed).pending = []) :
    submit_and_download cache req sc signed =
      (Outcome.completed (final_state sc signed).downloaded_file_paths,
       (final_state sc signed).effects,
       cache_transform cache req stat
         ((final_state sc signed).download_path.getD "")
         (final_state sc signed).downloaded_file_paths) ∧
    Effect.report_failures stat.files_failed ∈ (final_state sc signed).effects ∧
    (get_transform_by_hash
        (cache_transform cache req stat
          ((final_state sc signed).download_path.getD "")
          (final_state sc signed).downloaded_file_paths)
        req.compute_hash).map CacheRecord.file_uris =
      some (final_state sc signed).downloaded_file_paths ∧
    ∀ (sc2 : Scenario) (s2 : Bool),
      submit_and_download
          (cache_transform cache req stat
            ((final_state sc signed).download_path.getD "")
            (final_state sc signed).downloaded_file_paths) req sc2 s2 =
        (Outcome.cached_hit (final_state sc signed).downloaded_file_paths, [],
         cache_transform cache req stat
           ((final_state sc signed).download_path.getD "")
           (final_state sc signed).downloaded_file_paths) := by
  have hc := no_error_no_cancel sc signed hm
  refine ⟨submit_completed cache req sc signed stat h0 hc hd hp hs, ?_, ?_, ?_⟩
  · exact report_inv_final sc signed stat hs hcomp hpos
  · rw [get_transform_by_hash_after_record]
    rfl
  · intro sc2 s2
    exact submit_hit _ req sc2 s2 _
      (get_transform_by_hash_after_record cache req stat
        ((final_state sc signed).download_path.getD "")
        (final_state sc signed).downloaded_file_paths)

/-- C5 witness: the partial-failure run (files 3, completed 2, failed 1)
returns both drained files, reports the failure count 1, and persists the
record. -/
theorem C5_partial_failure_success_witness :
    (submit_and_download [] reqA scPartial false).1 =
      Outcome.completed (final_state scPartial false).downloaded_file_paths ∧
    Effect.report_failures 1 ∈ (final_state scPartial false).effects ∧
    (get_transform_by_hash
        (cache_transform [] reqA st_partial
          ((final_state scPartial false).download_path.getD "")
          (final_state scPartial false).downloaded_file_paths)
        reqA.compute_hash).map CacheRecord.file_uris =
      some (final_state scPartial false).downloaded_file_paths := by
  have h := C5_partial_failure_success [] reqA scPartial false st_partial
    (by rfl) (by decide) (by rfl) (by decide) (by decide) (by decide) (by decide)
  exact ⟨by rw [h.1], h.2.1, h.2.2.1⟩

end SxC
